import Mathlib

/-!
Verification development for the `ml4crystals_erice2024` teaching notebooks.

The notebooks define a handful of small Python helpers (`clean_df`,
`calculate_fingerprint`, `get_MACCS`, a fingerprint-stacking loop, the
`CNN_classifier` skeleton, a k-means per-cluster partition loop) and call
library routines (`train_test_split`, `KMeans`).  Below, each of those pieces
is embedded shallowly:

* RDKit is opaque to the repository, so it is modelled by a record of
  functions (`RDKitLib`): `MolFromSmiles` returns `none` when the library
  fails to produce a mol object (in Python this surfaces as `None` or as an
  exception inside the helper), and the two fingerprint generators return the
  library's bit vectors.  The repository-level helpers are then translated
  line by line on top of that record.
* Fallible notebook cells are `Except`-valued; an uncaught Python exception
  is `Except.error`.
* numpy float values that are always 0.0 or 1.0 here are modelled as `ℚ`.
-/

/-- Model of the RDKit surface used by the notebooks.  `Mol` is the opaque
mol-object type.  `molFromSmiles` models `Chem.MolFromSmiles` (with `none`
for a SMILES string on which the pipeline fails); `rdkFingerprint` models
`Chem.RDKFingerprint(mol, minSize=128)` (a bit vector, 2048 bits for the real
library); `genMACCSKeys` models `MACCSkeys.GenMACCSKeys(mol)` (167 bits). -/
structure RDKitLib (Mol : Type) where
  molFromSmiles : String → Option Mol
  rdkFingerprint : Mol → List Bool
  genMACCSKeys : Mol → List Bool

/-- `DataStructs.ConvertToNumpyArray(fp_temp, arr)`: the bit vector becomes a
numpy array of 0.0 / 1.0 entries. -/
def convertToNumpyArray (bits : List Bool) : List ℚ :=
  bits.map fun b => if b then (1 : ℚ) else 0

/-- Translation of the notebook helper

    def calculate_fingerprint(mol):
        fps = []                                      # empty list
        arr = np.zeros((1,))
        fp_temp = Chem.RDKFingerprint(mol, minSize=128)
        DataStructs.ConvertToNumpyArray(fp_temp, arr) # arr becomes the 2048-entry array
        fps.append(arr)
        return fps

Note the returned value is the list `fps` holding the single array `arr`. -/
def calculate_fingerprint {Mol : Type} (lib : RDKitLib Mol) (mol : Mol) : List (List ℚ) :=
  ([] : List (List ℚ)) ++ [convertToNumpyArray (lib.rdkFingerprint mol)]

/-- Translation of the notebook helper

    def get_MACCS(mol):
        fp = MACCSkeys.GenMACCSKeys(mol)
        fp = fp.ToBitString()
        fp = np.fromiter(fp, float)
        return fp

`ToBitString` followed by `np.fromiter(_, float)` maps each bit to 0.0/1.0. -/
def get_MACCS {Mol : Type} (lib : RDKitLib Mol) (mol : Mol) : List ℚ :=
  (lib.genMACCSKeys mol).map fun b => if b then (1 : ℚ) else 0

/-- A row of a gas-specific dataframe (`[Gas]_data = data.loc[:, ["Polymer",
"SMILES", gas]]`): polymer name, SMILES string, and the permeability entry
for the selected gas (`none` models a NaN cell). -/
structure GasRow where
  polymer : String
  smiles : String
  perm : Option ℚ
  deriving DecidableEq

/-- Translation of the solution-notebook helper exactly as shipped:

    def clean_df(df):
        #gets rid of NaN (not a number) entries in the dataframes
        # Drop duplicate SMILES rows (repeated entries from separate papers)
        return df

Both cleaning steps are comments only; the body returns the input. -/
def clean_df {α : Type} (df : α) : α := df

/-- The loop body of the fingerprint-stacking cell, iterated over the rows
`ML_data.iloc[1:]`:

    for i in range(1, len(ML_data)):
        try:
            mol_temp = Chem.MolFromSmiles(ML_data.iloc[i,1])
            fp_temp = calculate_fingerprint(mol_temp)
        except:
            print("Error getting fingerprint")
        fp = np.vstack([fp, fp_temp])

State: the accumulated array `fp` and the last value bound to `fp_temp`
(`none` while `fp_temp` has never been assigned).  A failing row is caught by
the bare `except`; `fp_temp` then still holds the previous row's fingerprint
and `np.vstack` stacks that stale value.  If `fp_temp` was never assigned the
`np.vstack` line itself raises an uncaught `NameError`. -/
def fingerprintStackGo {Mol : Type} (lib : RDKitLib Mol) :
    List String → List (List ℚ) → Option (List (List ℚ)) → Except String (List (List ℚ))
  | [], fp, _ => Except.ok fp
  | s :: rest, fp, fpTemp =>
    match lib.molFromSmiles s, fpTemp with
    | some m, _ =>
      fingerprintStackGo lib rest (fp ++ calculate_fingerprint lib m)
        (some (calculate_fingerprint lib m))
    | none, some prev => fingerprintStackGo lib rest (fp ++ prev) (some prev)
    | none, none => Except.error "NameError: name fp_temp is not defined"

/-- The whole fingerprint-stacking cell:

    mol_init = Chem.MolFromSmiles(ML_data.iloc[0,1])
    fp = calculate_fingerprint(mol_init)
    for i in range(1, len(ML_data)): ...  (see fingerprintStackGo)

Row 0 is fingerprinted outside any try/except, so a failure there is an
uncaught exception, as is `iloc[0,1]` on an empty dataframe. -/
def fingerprintStack {Mol : Type} (lib : RDKitLib Mol) (rows : List String) :
    Except String (List (List ℚ)) :=
  match rows with
  | [] => Except.error "IndexError: single positional indexer is out-of-bounds"
  | s :: rest =>
    match lib.molFromSmiles s with
    | none => Except.error "uncaught exception while fingerprinting row 0"
    | some m => fingerprintStackGo lib rest (calculate_fingerprint lib m) none

/-- A concrete instantiation of the RDKit model with the real library's
vector lengths (2048-bit topological fingerprint, 167-bit MACCS keys),
used to evaluate the theorems on concrete inputs. -/
def unitLib : RDKitLib Unit :=
  ⟨fun _ => some (), fun _ => List.replicate 2048 false, fun _ => List.replicate 167 false⟩

/-- A small instantiation of the RDKit model in which the SMILES string "X"
makes the fingerprint pipeline fail, and fingerprints are 1 bit long; used to
exercise the error paths of the stacking loop on concrete inputs. -/
def tinyLib : RDKitLib Unit :=
  ⟨fun s => if s = "X" then none else some (), fun _ => [true], fun _ => [false]⟩

/-! ## The 1D CNN classifier cell -/

/-- The Keras layers that appear in the CNN cell of the interpretable-ML
exercise notebook.  Only the shape-relevant parameters are carried; the
activation of a `dense` layer is recorded by its `softmax` flag, and
`conv1D` layers (relu activation, padding='same', l2 regularizer) carry
their channel count and kernel size. -/
inductive KLayer where
  | input (shape : List Nat)
  | batchNorm (eps momentum : ℚ)
  | conv1D (filters kernel : Nat)
  | maxPool1D
  | dropout (rate : ℚ)
  | flatten
  | dense (units : Nat) (softmax : Bool)
  deriving DecidableEq

/-- Output shape of one Keras layer on an input of shape `s` (shapes are
lists of dimensions, batch dimension omitted).  `conv1D` uses padding='same'
so the time dimension is kept; `maxPool1D` has the Keras default pool size 2
(stride 2, no padding), halving the time dimension with floor division. -/
def layerOut (s : List Nat) : KLayer → List Nat
  | KLayer.input sh => sh
  | KLayer.batchNorm _ _ => s
  | KLayer.conv1D f _ =>
    match s with
    | [t, _] => [t, f]
    | _ => s
  | KLayer.maxPool1D =>
    match s with
    | [t, c] => [t / 2, c]
    | _ => s
  | KLayer.dropout _ => s
  | KLayer.flatten => [s.foldl (fun a b => a * b) 1]
  | KLayer.dense u _ =>
    match s with
    | [] => []
    | _ => s.dropLast ++ [u]

/-- Output shape of a sequential stack of layers on input shape `s`. -/
def modelOut (layers : List KLayer) (s : List Nat) : List Nat :=
  layers.foldl layerOut s

/-- Translation of `CNN_classifier` exactly as shipped in the exercise
notebook:

    def CNN_classifier(input_shape=input_shape, num_classes=num_classes):
        model = Sequential()
        model.add(Input(shape=input_shape))
        model.add(BatchNormalization(epsilon=1e-06, momentum=0.9, weights=None))
        # Add the rest of the layers
        return model

The remaining eleven layers are left for the student; the shipped function
returns the two-layer model. -/
def CNN_classifier (input_shape : List Nat) (num_classes : Nat) : List KLayer :=
  [KLayer.input input_shape, KLayer.batchNorm (1 / 1000000) (9 / 10)]

/-- The architecture the notebook's markdown instructions describe (steps
3-13 of the cell above `CNN_classifier`); stated from those instructions for
comparison with the shipped skeleton. -/
def instructedCNN : List KLayer :=
  [KLayer.input [209, 1], KLayer.batchNorm (1 / 1000000) (9 / 10),
   KLayer.conv1D 256 32, KLayer.batchNorm (1 / 1000000) (9 / 10),
   KLayer.conv1D 64 32, KLayer.batchNorm (1 / 1000000) (9 / 10),
   KLayer.maxPool1D, KLayer.dropout (1 / 2), KLayer.flatten,
   KLayer.dense 128 false, KLayer.batchNorm (1 / 1000000) (9 / 10),
   KLayer.dropout (1 / 2), KLayer.dense 8 true]

/-! ## The per-cluster partition loop -/

/-- `np.where(labels == i)[0]`: the list of row indices whose cluster label
equals `i`. -/
def npWhereEq (labels : List Nat) (i : Nat) : List Nat :=
  (List.range labels.length).filter fun j => labels.getD j 0 == i

/-- numpy fancy indexing `X[idx, :]` (resp. `y[idx]`): the rows of `X`
selected by the index list. -/
def selectRows {α : Type} (X : List α) (js : List Nat) : List α :=
  js.filterMap fun j => X.get? j

/-! ## train_test_split and seeded randomness -/

/-- `train_size=0.8`: scikit-learn keeps `floor(0.8 * n)` training samples
(0.8 is exactly 4/5). -/
def trainSize (n : Nat) : Nat := 4 * n / 5

/-- Reindex a list of rows by a list of positions (the shuffled order used
by `train_test_split`); `default` stands in for the never-taken
out-of-range case. -/
def reindex {α : Type} [Inhabited α] (X : List α) (js : List Nat) : List α :=
  js.map fun j => X.getD j default

/-- Indices of the training rows: the first `trainSize n` entries of the
shuffled index order. -/
def ttsTrainIdx (idx : List Nat) : List Nat := idx.take (trainSize idx.length)

/-- Indices of the test rows: the remaining entries of the shuffled order. -/
def ttsTestIdx (idx : List Nat) : List Nat := idx.drop (trainSize idx.length)

/-- `sklearn.model_selection.train_test_split(X, y, train_size=0.8,
random_state=r)`: the seeded RNG produces one shuffled order `idx` of the row
indices; the first `floor(0.8*n)` shuffled positions become the training
rows and the rest the test rows, with the same `idx` applied to `X` and `y`.
Returns `(X_train, X_test, y_train, y_test)`. -/
def train_test_split {α β : Type} [Inhabited α] [Inhabited β]
    (idx : List Nat) (X : List α) (y : List β) :
    List α × List α × List β × List β :=
  (reindex X (ttsTrainIdx idx), reindex X (ttsTestIdx idx),
   reindex y (ttsTrainIdx idx), reindex y (ttsTestIdx idx))

/-- One step of a 64-bit linear congruential generator, standing in for the
library's pseudorandom stream (the exact stream is irrelevant to the claims;
only that it is a pure function of the seed). -/
def lcgStep (s : Nat) : Nat := (6364136223846793005 * s + 1442695040888963407) % (2 ^ 64)

/-- Fisher-Yates-style seeded shuffle driver: repeatedly removes the element
at a pseudorandom position.  `fuel` bounds the recursion by the list
length. -/
def shuffleGo : Nat → Nat → List Nat → List Nat → List Nat
  | _, 0, _, acc => acc.reverse
  | st, fuel + 1, l, acc =>
    if l.isEmpty then acc.reverse
    else shuffleGo (lcgStep st) fuel (l.eraseIdx (st % l.length)) (l.getD (st % l.length) 0 :: acc)

/-- Model of `numpy.random.RandomState(seed).permutation(n)`: a
deterministic, seed-determined shuffled order of `0..n-1`. -/
def permFromSeed (seed n : Nat) : List Nat :=
  shuffleGo (lcgStep seed) n (List.range n) []

/-- Resolution of scikit-learn's `random_state` argument: a fixed integer
seeds a fresh generator; `None` falls back to the ambient global RNG state
`env` (which differs between runs). -/
def resolveSeed (rs : Option Nat) (env : Nat) : Nat := rs.getD env

/-- A run of the `train_test_split` call: the ambient RNG state `env` is
consulted only when `random_state` is `None`. -/
def ttsRun {α β : Type} [Inhabited α] [Inhabited β]
    (env : Nat) (rs : Option Nat) (X : List α) (y : List β) :
    List α × List α × List β × List β :=
  train_test_split (permFromSeed (resolveSeed rs env) X.length) X y

/-! ## k-means (two features, as in the notebook's `X_train[:,[0,1]]`) -/

/-- Squared Euclidean distance between two 2-feature points. -/
def sqDist (p q : ℚ × ℚ) : ℚ :=
  (p.1 - q.1) * (p.1 - q.1) + (p.2 - q.2) * (p.2 - q.2)

/-- Index of the centroid nearest to `p` (first minimizer; 0 on an empty
centroid list). -/
def nearestIdx (cs : List (ℚ × ℚ)) (p : ℚ × ℚ) : Nat :=
  match cs with
  | [] => 0
  | c :: rest =>
    (rest.enum.foldl
      (fun acc jc => if sqDist jc.2 p < acc.2 then (jc.1 + 1, sqDist jc.2 p) else acc)
      (0, sqDist c p)).1

/-- Mean of a list of rationals (0 on the empty list, never used that way). -/
def meanQ (l : List ℚ) : ℚ := l.sum / (l.length : ℚ)

/-- Updated centroid of cluster `i`: the mean of the points assigned to it
(keeping the old centroid when the cluster is empty). -/
def centroidOf (pts : List (ℚ × ℚ)) (labels : List Nat) (i : Nat) (old : ℚ × ℚ) : ℚ × ℚ :=
  let sel := ((pts.zip labels).filter fun pl => pl.2 == i).map Prod.fst
  if sel.isEmpty then old
  else (meanQ (sel.map Prod.fst), meanQ (sel.map Prod.snd))

/-- One Lloyd iteration: assign every point to its nearest centroid, then
recompute each centroid as its cluster mean. -/
def lloydStep (pts : List (ℚ × ℚ)) (cs : List (ℚ × ℚ)) : List (ℚ × ℚ) :=
  let labels := pts.map (nearestIdx cs)
  (List.range cs.length).map fun i => centroidOf pts labels i (cs.getD i (0, 0))

/-- Iterated Lloyd steps. -/
def lloydIter (pts : List (ℚ × ℚ)) : Nat → List (ℚ × ℚ) → List (ℚ × ℚ)
  | 0, cs => cs
  | t + 1, cs => lloydIter pts t (lloydStep pts cs)

/-- Model of `KMeans(n_clusters=k, random_state=seed).fit(pts)`: `k` seeded
initial centroids drawn from the data, then Lloyd iterations (scikit-learn's
default iteration cap is 300). -/
def kmeansFit (seed k : Nat) (pts : List (ℚ × ℚ)) : List (ℚ × ℚ) :=
  let initIdx := (permFromSeed seed pts.length).take k
  lloydIter pts 300 (initIdx.filterMap fun j => pts.get? j)

/-- `kmeans.predict(pts)`: nearest-centroid label for each point. -/
def kmeansPredict (cs : List (ℚ × ℚ)) (pts : List (ℚ × ℚ)) : List Nat :=
  pts.map (nearestIdx cs)

/-- A run of the notebook's k-means cell: fit on the training points with the
given `random_state`, then predict labels for the training and test points.
The ambient RNG state `env` is consulted only when `random_state` is
`None`. -/
def kmeansRun (env : Nat) (rs : Option Nat) (k : Nat) (tr te : List (ℚ × ℚ)) :
    List Nat × List Nat :=
  let cs := kmeansFit (resolveSeed rs env) k tr
  (kmeansPredict cs tr, kmeansPredict cs te)


/-! ## Basic facts about the fingerprint helpers -/

theorem calculate_fingerprint_eq {Mol : Type} (lib : RDKitLib Mol) (m : Mol) :
    calculate_fingerprint lib m = [convertToNumpyArray (lib.rdkFingerprint m)] := rfl

theorem calculate_fingerprint_length {Mol : Type} (lib : RDKitLib Mol) (m : Mol) :
    (calculate_fingerprint lib m).length = 1 := rfl

theorem convertToNumpyArray_length (bits : List Bool) :
    (convertToNumpyArray bits).length = bits.length := List.length_map _ _

theorem convertToNumpyArray_binary (bits : List Bool) :
    ∀ q ∈ convertToNumpyArray bits, q = 0 ∨ q = 1 := by
  intro q hq
  obtain ⟨b, -, rfl⟩ := List.mem_map.mp hq
  cases b <;> simp

theorem get_MACCS_eq {Mol : Type} (lib : RDKitLib Mol) (m : Mol) :
    get_MACCS lib m = convertToNumpyArray (lib.genMACCSKeys m) := rfl

theorem unitLib_rdk_length (m : Unit) : (unitLib.rdkFingerprint m).length = 2048 := by
  show (List.replicate 2048 false).length = 2048
  rw [List.length_replicate]

theorem unitLib_maccs_length (m : Unit) : (unitLib.genMACCSKeys m).length = 167 := by
  show (List.replicate 167 false).length = 167
  rw [List.length_replicate]

/-- Claim C2 (counterexample): even with the library producing 2048-bit
fingerprints, `calculate_fingerprint` does not return a 2048-entry vector:
its return value is the list `fps`, of length 1 (holding the vector). -/
theorem calculate_fingerprint_not_flat :
    (∀ m : Unit, (unitLib.rdkFingerprint m).length = 2048) ∧
    (calculate_fingerprint unitLib ()).length = 1 ∧
    (calculate_fingerprint unitLib ()).length ≠ 2048 := by
  refine ⟨unitLib_rdk_length, rfl, ?_⟩
  rw [calculate_fingerprint_length]
  decide

/-- Claim C2 (amended): for every mol object, `calculate_fingerprint` returns
a singleton list whose sole element is a 2048-entry vector of 0/1 values
(a 1 x 2048 array), and `get_MACCS` returns a flat 167-entry vector of
0.0/1.0 values. -/
theorem fingerprint_helpers_shapes {Mol : Type} (lib : RDKitLib Mol) (mol : Mol)
    (h2048 : ∀ m, (lib.rdkFingerprint m).length = 2048)
    (h167 : ∀ m, (lib.genMACCSKeys m).length = 167) :
    (calculate_fingerprint lib mol).length = 1 ∧
    (∀ v ∈ calculate_fingerprint lib mol, v.length = 2048 ∧ ∀ q ∈ v, q = 0 ∨ q = 1) ∧
    (get_MACCS lib mol).length = 167 ∧
    (∀ q ∈ get_MACCS lib mol, q = 0 ∨ q = 1) := by
  refine ⟨calculate_fingerprint_length lib mol, ?_, ?_, ?_⟩
  · intro v hv
    rw [calculate_fingerprint_eq, List.mem_singleton] at hv
    subst hv
    exact ⟨(convertToNumpyArray_length _).trans (h2048 mol), convertToNumpyArray_binary _⟩
  · rw [get_MACCS_eq]
    exact (convertToNumpyArray_length _).trans (h167 mol)
  · rw [get_MACCS_eq]
    exact convertToNumpyArray_binary _

/-- Claim C2 (witness): the amended statement evaluated with the real
library's vector lengths on a concrete mol object. -/
theorem fingerprint_helpers_shapes_witness :
    (∀ m : Unit, (unitLib.rdkFingerprint m).length = 2048) ∧
    (∀ m : Unit, (unitLib.genMACCSKeys m).length = 167) ∧
    ((calculate_fingerprint unitLib ()).length = 1 ∧
      (∀ v ∈ calculate_fingerprint unitLib (), v.length = 2048 ∧ ∀ q ∈ v, q = 0 ∨ q = 1) ∧
      (get_MACCS unitLib ()).length = 167 ∧
      (∀ q ∈ get_MACCS unitLib (), q = 0 ∨ q = 1)) :=
  ⟨unitLib_rdk_length, unitLib_maccs_length,
    fingerprint_helpers_shapes unitLib () unitLib_rdk_length unitLib_maccs_length⟩

/-- Claim C8: as shipped in the exercise notebook, `clean_df` is the identity
function: it returns its input dataframe unchanged, so every row — including
rows with NaN permeability entries and rows duplicating another row's SMILES
string — is still present (and the row count unchanged) after `clean_df` is
applied to a gas-specific dataframe. -/
theorem clean_df_identity (df : List GasRow) :
    clean_df df = df ∧ (clean_df df).length = df.length ∧
    ∀ r ∈ df, r ∈ clean_df df :=
  ⟨rfl, rfl, fun _ hr => hr⟩

/-- Claim C8 (witness): a concrete dataframe with a NaN permeability row and
a duplicated SMILES string survives `clean_df` intact. -/
theorem clean_df_identity_witness :
    clean_df [⟨"polyaniline", "Nc1ccccc1", none⟩,
      ⟨"PIM-1", "CC(C)C", some (5 / 2)⟩, ⟨"PIM-1b", "CC(C)C", some 3⟩] =
      ([⟨"polyaniline", "Nc1ccccc1", none⟩,
        ⟨"PIM-1", "CC(C)C", some (5 / 2)⟩, ⟨"PIM-1b", "CC(C)C", some 3⟩] : List GasRow) ∧
    (⟨"polyaniline", "Nc1ccccc1", none⟩ : GasRow) ∈
      clean_df [⟨"polyaniline", "Nc1ccccc1", none⟩,
        ⟨"PIM-1", "CC(C)C", some (5 / 2)⟩, ⟨"PIM-1b", "CC(C)C", some 3⟩] :=
  ⟨(clean_df_identity _).1,
    (clean_df_identity _).2.2 _ (by simp)⟩

/-- Claim C4 (counterexample): the shipped `CNN_classifier` does not build
the instructed architecture, and its output on a `(209,1)` input has shape
`(209,1)`, not a length-8 vector. -/
theorem CNN_classifier_skeleton_counterexample :
    CNN_classifier [209, 1] 8 ≠ instructedCNN ∧
    modelOut (CNN_classifier [209, 1] 8) [209, 1] = [209, 1] ∧
    modelOut (CNN_classifier [209, 1] 8) [209, 1] ≠ [8] := by
  refine ⟨fun h => ?_, rfl, by decide⟩
  have := congrArg List.length h
  rw [show (CNN_classifier [209, 1] 8).length = 2 from rfl,
    show instructedCNN.length = 13 from rfl] at this
  exact absurd this (by decide)

/-- Claim C4 (amended): as shipped, `CNN_classifier` returns a Sequential
model with only the two given layers (Input and BatchNormalization), whose
output shape equals the input shape `(209,1)`; the remaining layers are
described only in the notebook's instructions, and that instructed stack
(ending in a Dense layer of width 8 with softmax activation) would map a
`(209,1)` input to a length-8 output. -/
theorem CNN_classifier_skeleton_shape :
    CNN_classifier [209, 1] 8 =
      [KLayer.input [209, 1], KLayer.batchNorm (1 / 1000000) (9 / 10)] ∧
    modelOut (CNN_classifier [209, 1] 8) [209, 1] = [209, 1] ∧
    modelOut instructedCNN [209, 1] = [8] ∧
    instructedCNN.getLast? = some (KLayer.dense 8 true) :=
  ⟨rfl, rfl, rfl, rfl⟩

/-- Claim C6 (counterexample): a concrete, machine-checked invariant of a
repository-defined function does exist — `get_MACCS` applied to a mol object
under the real library's key length returns a 167-entry vector, and
`clean_df` returns its input unchanged. -/
theorem repo_invariant_instance :
    (get_MACCS unitLib ()).length = 167 ∧
    clean_df ([⟨"p", "CC", some 1⟩] : List GasRow) = [⟨"p", "CC", some 1⟩] := by
  constructor
  · rw [get_MACCS_eq, convertToNumpyArray_length]
    exact unitLib_maccs_length ()
  · rfl

/-- Claim C6 (amended): the notebooks' graded outputs are plots and scores,
but the repository-defined helper functions do satisfy checkable program
invariants: every entry of `get_MACCS` is 0 or 1, and `clean_df` leaves any
dataframe unchanged. -/
theorem repo_functions_have_invariants {Mol : Type} (lib : RDKitLib Mol) (mol : Mol)
    (df : List GasRow) :
    (∀ q ∈ get_MACCS lib mol, q = 0 ∨ q = 1) ∧ clean_df df = df := by
  rw [get_MACCS_eq]
  exact ⟨convertToNumpyArray_binary _, rfl⟩

/-- Claim C6 (witness): the invariant evaluated at a concrete entry of a
concrete `get_MACCS` vector. -/
theorem repo_functions_have_invariants_witness :
    (0 : ℚ) ∈ get_MACCS unitLib () ∧ ((0 : ℚ) = 0 ∨ (0 : ℚ) = 1) := by
  have hm : (0 : ℚ) ∈ get_MACCS unitLib () := by
    rw [get_MACCS_eq]
    show (0 : ℚ) ∈ convertToNumpyArray (List.replicate 167 false)
    simp only [convertToNumpyArray, List.map_replicate, if_neg Bool.false_ne_true]
    exact List.mem_replicate.mpr ⟨by decide, rfl⟩
  exact ⟨hm, (repo_functions_have_invariants unitLib () []).1 0 hm⟩

/-! ## The fingerprint-stacking loop -/

theorem fingerprintStackGo_cons {Mol : Type} (lib : RDKitLib Mol) (s : String)
    (rest : List String) (fp : List (List ℚ)) (fpT : Option (List (List ℚ))) :
    fingerprintStackGo lib (s :: rest) fp fpT =
      match lib.molFromSmiles s, fpT with
      | some m, _ =>
        fingerprintStackGo lib rest (fp ++ calculate_fingerprint lib m)
          (some (calculate_fingerprint lib m))
      | none, some prev => fingerprintStackGo lib rest (fp ++ prev) (some prev)
      | none, none => Except.error "NameError: name fp_temp is not defined" := rfl

theorem fingerprintStack_cons {Mol : Type} (lib : RDKitLib Mol) (s : String)
    (rest : List String) :
    fingerprintStack lib (s :: rest) =
      match lib.molFromSmiles s with
      | none => Except.error "uncaught exception while fingerprinting row 0"
      | some m => fingerprintStackGo lib rest (calculate_fingerprint lib m) none := rfl

/-- Once `fp_temp` holds some (one-row) value, the loop can no longer raise:
every later failure is caught by the bare `except` and the stale `fp_temp`
is stacked, so the loop adds exactly one row per remaining input row. -/
theorem fingerprintStackGo_ok_of_prev {Mol : Type} (lib : RDKitLib Mol) :
    ∀ (rest : List String) (fp prev : List (List ℚ)), prev.length = 1 →
      ∃ out, fingerprintStackGo lib rest fp (some prev) = Except.ok out ∧
        out.length = fp.length + rest.length := by
  intro rest
  induction rest with
  | nil => exact fun fp prev _ => ⟨fp, rfl, by simp⟩
  | cons s rs ih =>
    intro fp prev hprev
    cases hm : lib.molFromSmiles s with
    | some m =>
      obtain ⟨out, hout, hlen⟩ :=
        ih (fp ++ calculate_fingerprint lib m) (calculate_fingerprint lib m)
          (calculate_fingerprint_length lib m)
      refine ⟨out, ?_, ?_⟩
      · rw [fingerprintStackGo_cons, hm]
        exact hout
      · rw [hlen, List.length_append, calculate_fingerprint_length, List.length_cons]
        omega
    | none =>
      obtain ⟨out, hout, hlen⟩ := ih (fp ++ prev) prev hprev
      refine ⟨out, ?_, ?_⟩
      · rw [fingerprintStackGo_cons, hm]
        exact hout
      · rw [hlen, List.length_append, hprev, List.length_cons]
        omega

/-- When every remaining row's SMILES parses, the loop only takes the success
branch: it appends one 2048-entry row per input row. -/
theorem fingerprintStackGo_ok_of_valid {Mol : Type} (lib : RDKitLib Mol)
    (h2048 : ∀ m, (lib.rdkFingerprint m).length = 2048) :
    ∀ (rest : List String) (fp : List (List ℚ)) (fpT : Option (List (List ℚ))),
      (∀ s ∈ rest, (lib.molFromSmiles s).isSome) →
      (∀ v ∈ fp, v.length = 2048) →
      ∃ out, fingerprintStackGo lib rest fp fpT = Except.ok out ∧
        out.length = fp.length + rest.length ∧ ∀ v ∈ out, v.length = 2048 := by
  intro rest
  induction rest with
  | nil => exact fun fp fpT _ hfp => ⟨fp, rfl, by simp, hfp⟩
  | cons s rs ih =>
    intro fp fpT hvalid hfp
    obtain ⟨m, hm⟩ := Option.isSome_iff_exists.mp (hvalid s (List.mem_cons_self s rs))
    have hfp' : ∀ v ∈ fp ++ calculate_fingerprint lib m, v.length = 2048 := by
      intro v hv
      rcases List.mem_append.mp hv with h | h
      · exact hfp v h
      · rw [calculate_fingerprint_eq, List.mem_singleton] at h
        subst h
        exact (convertToNumpyArray_length _).trans (h2048 m)
    obtain ⟨out, hout, hlen, hall⟩ :=
      ih (fp ++ calculate_fingerprint lib m) (some (calculate_fingerprint lib m))
        (fun r hr => hvalid r (List.mem_cons_of_mem s hr)) hfp'
    refine ⟨out, ?_, ?_, hall⟩
    · rw [fingerprintStackGo_cons, hm]
      exact hout
    · rw [hlen, List.length_append, calculate_fingerprint_length, List.length_cons]
      omega

/-- Claim C1 (counterexample): a row whose SMILES makes the fingerprint
pipeline raise does not make the exception propagate out of the stacking
loop.  With `tinyLib` (where the SMILES "X" fails) the three-row input
["CC", "CO", "X"] still finishes with `ok` — the bare `except` catches the
failure, and the previous row's fingerprint is stacked again in row 2. -/
theorem stackLoop_swallows_failure :
    tinyLib.molFromSmiles "X" = none ∧
    fingerprintStack tinyLib ["CC", "CO", "X"] = Except.ok [[1], [1], [1]] :=
  ⟨rfl, rfl⟩

/-- Claim C1 (amended): the stacking loop wraps the per-row fingerprinting in
a bare try/except, so an exception propagates only from row 0 (fingerprinted
before the loop, outside the try) or from the first looped row (where the
except leaves `fp_temp` unassigned and `np.vstack` raises a `NameError`);
whenever rows 0 and 1 succeed, every later failure is caught, the loop runs
to completion and still emits one row per input row (re-stacking the stale
`fp_temp` for the failed rows). -/
theorem stackLoop_ok_of_first_two_valid {Mol : Type} (lib : RDKitLib Mol)
    (r0 : String) (rest : List String)
    (h0 : (lib.molFromSmiles r0).isSome)
    (h1 : ∀ r1 ∈ rest.take 1, (lib.molFromSmiles r1).isSome) :
    ∃ fp, fingerprintStack lib (r0 :: rest) = Except.ok fp ∧
      fp.length = rest.length + 1 := by
  obtain ⟨m0, hm0⟩ := Option.isSome_iff_exists.mp h0
  cases rest with
  | nil =>
    refine ⟨calculate_fingerprint lib m0, ?_, calculate_fingerprint_length lib m0⟩
    rw [fingerprintStack_cons, hm0]
    rfl
  | cons r1 rs =>
    obtain ⟨m1, hm1⟩ := Option.isSome_iff_exists.mp (h1 r1 (by simp))
    obtain ⟨out, hout, hlen⟩ :=
      fingerprintStackGo_ok_of_prev lib rs
        (calculate_fingerprint lib m0 ++ calculate_fingerprint lib m1)
        (calculate_fingerprint lib m1) (calculate_fingerprint_length lib m1)
    refine ⟨out, ?_, ?_⟩
    · rw [fingerprintStack_cons, hm0]
      show fingerprintStackGo lib (r1 :: rs) (calculate_fingerprint lib m0) none = Except.ok out
      rw [fingerprintStackGo_cons, hm1]
      exact hout
    · rw [hlen, List.length_append, calculate_fingerprint_length,
        calculate_fingerprint_length, List.length_cons]
      omega

/-- Claim C1 (witness): the amended statement evaluated on a concrete
three-row input whose last row fails. -/
theorem stackLoop_ok_of_first_two_valid_witness :
    (tinyLib.molFromSmiles "CC").isSome ∧
    (∀ r1 ∈ (["CO", "X"] : List String).take 1, (tinyLib.molFromSmiles r1).isSome) ∧
    ∃ fp, fingerprintStack tinyLib ["CC", "CO", "X"] = Except.ok fp ∧
      fp.length = (["CO", "X"] : List String).length + 1 :=
  ⟨by decide, by decide,
    stackLoop_ok_of_first_two_valid tinyLib "CC" ["CO", "X"] (by decide) (by decide)⟩

/-- Claim C3: for a nonempty gas-specific dataframe all of whose SMILES
strings are valid, the stacking cell succeeds and produces one 2048-entry
row per dataframe row, so the stacked array shape-matches the length-N
permeability vector `ML_data[gas].values` taken from the same dataframe. -/
theorem fingerprint_stack_shape {Mol : Type} (lib : RDKitLib Mol) (ML_data : List GasRow)
    (h2048 : ∀ m, (lib.rdkFingerprint m).length = 2048)
    (hvalid : ∀ r ∈ ML_data, (lib.molFromSmiles r.smiles).isSome)
    (hne : ML_data ≠ []) :
    ∃ fp, fingerprintStack lib (ML_data.map GasRow.smiles) = Except.ok fp ∧
      fp.length = ML_data.length ∧
      (∀ v ∈ fp, v.length = 2048) ∧
      fp.length = (ML_data.map GasRow.perm).length := by
  cases ML_data with
  | nil => exact absurd rfl hne
  | cons r rows =>
    obtain ⟨m0, hm0⟩ :=
      Option.isSome_iff_exists.mp (hvalid r (List.mem_cons_self r rows))
    have hfp0 : ∀ v ∈ calculate_fingerprint lib m0, v.length = 2048 := by
      intro v hv
      rw [calculate_fingerprint_eq, List.mem_singleton] at hv
      subst hv
      exact (convertToNumpyArray_length _).trans (h2048 m0)
    obtain ⟨out, hout, hlen, hall⟩ :=
      fingerprintStackGo_ok_of_valid lib h2048 (rows.map GasRow.smiles)
        (calculate_fingerprint lib m0) none
        (by
          intro s hs
          obtain ⟨rr, hrr, rfl⟩ := List.mem_map.mp hs
          exact hvalid rr (List.mem_cons_of_mem r hrr))
        hfp0
    refine ⟨out, ?_, ?_, hall, ?_⟩
    · rw [List.map_cons, fingerprintStack_cons, hm0]
      exact hout
    · rw [hlen, calculate_fingerprint_length, List.length_map, List.length_cons]
      omega
    · rw [hlen, calculate_fingerprint_length, List.length_map, List.length_map,
        List.length_cons]
      omega

/-- Claim C3 (witness): the shape invariant evaluated on a concrete two-row
dataframe under the real library's fingerprint length. -/
theorem fingerprint_stack_shape_witness :
    (∀ m : Unit, (unitLib.rdkFingerprint m).length = 2048) ∧
    (∀ r ∈ ([⟨"PA", "CC", some 1⟩, ⟨"PB", "CO", some (3 / 2)⟩] : List GasRow),
      (unitLib.molFromSmiles r.smiles).isSome) ∧
    ∃ fp, fingerprintStack unitLib
        (([⟨"PA", "CC", some 1⟩, ⟨"PB", "CO", some (3 / 2)⟩] : List GasRow).map GasRow.smiles) =
        Except.ok fp ∧
      fp.length = ([⟨"PA", "CC", some 1⟩, ⟨"PB", "CO", some (3 / 2)⟩] : List GasRow).length ∧
      (∀ v ∈ fp, v.length = 2048) ∧
      fp.length =
        (([⟨"PA", "CC", some 1⟩, ⟨"PB", "CO", some (3 / 2)⟩] : List GasRow).map GasRow.perm).length :=
  ⟨unitLib_rdk_length, fun _ _ => rfl,
    fingerprint_stack_shape unitLib _ unitLib_rdk_length (fun _ _ => rfl) (by simp)⟩

/-! ## The per-cluster partition loop -/

theorem mem_npWhereEq (labels : List Nat) (i j : Nat) :
    j ∈ npWhereEq labels i ↔ j < labels.length ∧ labels.getD j 0 = i := by
  simp [npWhereEq, List.mem_filter, List.mem_range]

theorem selectRows_length {α : Type} (X : List α) :
    ∀ js : List Nat, (∀ j ∈ js, j < X.length) →
      (selectRows X js).length = js.length := by
  intro js
  induction js with
  | nil => intro; rfl
  | cons j js ih =>
    intro h
    have hj : j < X.length := h j (List.mem_cons_self j js)
    have hrec := ih fun t ht => h t (List.mem_cons_of_mem j ht)
    simp only [selectRows, List.filterMap_cons, List.get?_eq_get hj, List.length_cons]
    exact congrArg (· + 1) hrec

theorem filter_label_sum (labels : List Nat) :
    ∀ L : List Nat, (∀ j ∈ L, labels.getD j 0 < 3) →
      (L.filter fun j => labels.getD j 0 == 0).length +
        (L.filter fun j => labels.getD j 0 == 1).length +
        (L.filter fun j => labels.getD j 0 == 2).length = L.length := by
  intro L
  induction L with
  | nil => intro; rfl
  | cons j L ih =>
    intro h
    have hj : labels.getD j 0 < 3 := h j (List.mem_cons_self j L)
    have hrec := ih fun t ht => h t (List.mem_cons_of_mem j ht)
    have hcase : labels.getD j 0 = 0 ∨ labels.getD j 0 = 1 ∨ labels.getD j 0 = 2 := by omega
    rcases hcase with hv | hv | hv <;>
      · simp only [List.filter_cons, hv, List.length_cons,
          show ((0 : Nat) == 0) = true from rfl, show ((0 : Nat) == 1) = false from rfl,
          show ((0 : Nat) == 2) = false from rfl, show ((1 : Nat) == 0) = false from rfl,
          show ((1 : Nat) == 1) = true from rfl, show ((1 : Nat) == 2) = false from rfl,
          show ((2 : Nat) == 0) = false from rfl, show ((2 : Nat) == 1) = false from rfl,
          show ((2 : Nat) == 2) = true from rfl, if_true, if_false, List.length_cons,
          Bool.false_eq_true, ite_false, ite_true]
        omega

theorem npWhereEq_bound (labels : List Nat) (i : Nat) :
    ∀ j ∈ npWhereEq labels i, j < labels.length :=
  fun j hj => ((mem_npWhereEq labels i j).mp hj).1

/-- The label list produced by `kmeans.predict` with three fitted clusters
has all entries below 3; here stated for any list whose entries come from
`labels`. -/
theorem getD_lt_of_all_lt (labels : List Nat) (hk : ∀ l ∈ labels, l < 3) :
    ∀ j ∈ List.range labels.length, labels.getD j 0 < 3 := by
  intro j hj
  rw [List.mem_range] at hj
  rw [List.getD_eq_get labels 0 hj]
  exact hk _ (labels.get_mem _ _)

theorem npWhereEq_length_sum (labels : List Nat) (hk : ∀ l ∈ labels, l < 3) :
    (npWhereEq labels 0).length + (npWhereEq labels 1).length +
      (npWhereEq labels 2).length = labels.length := by
  have := filter_label_sum labels (List.range labels.length) (getD_lt_of_all_lt labels hk)
  simpa [npWhereEq] using this

/-- Claim C5: with a fitted 3-cluster k-means model, the per-cluster
selection loop

    for i in range(n_clusters):
        idx = np.where(cluster_labels == i)[0]
        X_cluster[i] = X[idx, :]
        y_cluster[i] = y[idx]

partitions the rows: every row index lands in exactly one cluster
`i ∈ {0,1,2}`, each cluster's `X` and `y` selections have equally many rows,
and the three cluster row counts sum to the number of rows of `X`.  The same
statement instantiated with the test rows and test labels covers the test
set. -/
theorem cluster_partition {α β : Type} (X : List α) (y : List β) (labels : List Nat)
    (hlen : labels.length = X.length) (hy : y.length = X.length)
    (hk : ∀ l ∈ labels, l < 3) :
    (∀ j, j < X.length → ∃! i, i < 3 ∧ j ∈ npWhereEq labels i) ∧
    (∀ i, (selectRows X (npWhereEq labels i)).length =
      (selectRows y (npWhereEq labels i)).length) ∧
    (selectRows X (npWhereEq labels 0)).length +
      (selectRows X (npWhereEq labels 1)).length +
      (selectRows X (npWhereEq labels 2)).length = X.length := by
  have hselX : ∀ i, (selectRows X (npWhereEq labels i)).length = (npWhereEq labels i).length :=
    fun i => selectRows_length X _ fun j hj => hlen ▸ npWhereEq_bound labels i j hj
  have hselY : ∀ i, (selectRows y (npWhereEq labels i)).length = (npWhereEq labels i).length :=
    fun i => selectRows_length y _ fun j hj => by
      rw [hy]
      exact hlen ▸ npWhereEq_bound labels i j hj
  refine ⟨?_, fun i => (hselX i).trans (hselY i).symm, ?_⟩
  · intro j hj
    have hjl : j < labels.length := hlen ▸ hj
    refine ⟨labels.getD j 0, ⟨?_, (mem_npWhereEq labels _ j).mpr ⟨hjl, rfl⟩⟩, ?_⟩
    · rw [List.getD_eq_get labels 0 hjl]
      exact hk _ (labels.get_mem _ _)
    · intro i hi
      exact (((mem_npWhereEq labels i j).mp hi.2).2).symm
  · rw [hselX 0, hselX 1, hselX 2, ← hlen]
    exact npWhereEq_length_sum labels hk

/-- Claim C5 (witness): the partition invariant evaluated on a concrete
four-row training set with labels drawn from three clusters. -/
theorem cluster_partition_witness :
    (([0, 2, 1, 0] : List Nat).length = ([10, 20, 30, 40] : List Nat).length) ∧
    (∀ l ∈ ([0, 2, 1, 0] : List Nat), l < 3) ∧
    ((∀ j, j < ([10, 20, 30, 40] : List Nat).length →
        ∃! i, i < 3 ∧ j ∈ npWhereEq [0, 2, 1, 0] i) ∧
      (∀ i, (selectRows ([10, 20, 30, 40] : List Nat) (npWhereEq [0, 2, 1, 0] i)).length =
        (selectRows ([5, 6, 7, 8] : List Nat) (npWhereEq [0, 2, 1, 0] i)).length) ∧
      (selectRows ([10, 20, 30, 40] : List Nat) (npWhereEq [0, 2, 1, 0] 0)).length +
        (selectRows ([10, 20, 30, 40] : List Nat) (npWhereEq [0, 2, 1, 0] 1)).length +
        (selectRows ([10, 20, 30, 40] : List Nat) (npWhereEq [0, 2, 1, 0] 2)).length =
        ([10, 20, 30, 40] : List Nat).length) :=
  ⟨rfl, by decide,
    cluster_partition [10, 20, 30, 40] [5, 6, 7, 8] [0, 2, 1, 0] rfl rfl (by decide)⟩

/-! ## train_test_split -/

theorem train_test_split_eq {α β : Type} [Inhabited α] [Inhabited β]
    (idx : List Nat) (X : List α) (y : List β) :
    train_test_split idx X y =
      (reindex X (ttsTrainIdx idx), reindex X (ttsTestIdx idx),
        reindex y (ttsTrainIdx idx), reindex y (ttsTestIdx idx)) := rfl

theorem zip_getD_map_range {α β : Type} [Inhabited α] [Inhabited β] :
    ∀ (X : List α) (y : List β), y.length = X.length →
      (List.range X.length).map (fun j => (X.getD j default, y.getD j default)) = X.zip y := by
  intro X
  induction X with
  | nil =>
    intro y hy
    rw [List.length_eq_zero.mp hy]
    rfl
  | cons a X ih =>
    intro y hy
    cases y with
    | nil => exact absurd hy (by simp)
    | cons b y =>
      rw [List.length_cons, List.range_succ_eq_map, List.map_cons, List.map_map,
        List.zip_cons_cons, ← ih y (by simpa using hy)]
      congr 1

/-- Claim C9: `train_test_split(X, y, train_size=0.8, random_state=r)`
splits any `N`-sample dataset into a training part of `floor(0.8*N)` rows
and a test part with the remaining rows; the shuffled train and test index
lists are disjoint, `X_train` pairs row-for-row with `y_train` and `X_test`
with `y_test`, and together the train and test pairs contain every original
`(X, y)` sample exactly once. -/
theorem train_test_split_partition {α β : Type} [Inhabited α] [Inhabited β]
    (X : List α) (y : List β) (idx : List Nat)
    (hperm : idx.Perm (List.range X.length)) (hy : y.length = X.length) :
    (train_test_split idx X y).1.length = trainSize X.length ∧
    (train_test_split idx X y).2.1.length = X.length - trainSize X.length ∧
    (train_test_split idx X y).2.2.1.length = trainSize X.length ∧
    (train_test_split idx X y).2.2.2.length = X.length - trainSize X.length ∧
    List.Disjoint (ttsTrainIdx idx) (ttsTestIdx idx) ∧
    ((train_test_split idx X y).1.zip (train_test_split idx X y).2.2.1 ++
      (train_test_split idx X y).2.1.zip (train_test_split idx X y).2.2.2).Perm
      (X.zip y) := by
  have hlen : idx.length = X.length := hperm.length_eq.trans (List.length_range _)
  have hk : trainSize X.length ≤ X.length := by
    unfold trainSize
    omega
  have htake : (ttsTrainIdx idx).length = trainSize X.length := by
    rw [ttsTrainIdx, List.length_take, hlen]
    omega
  have hdrop : (ttsTestIdx idx).length = X.length - trainSize X.length := by
    rw [ttsTestIdx, List.length_drop, hlen]
  have hnd : idx.Nodup := hperm.nodup_iff.mpr (List.nodup_range _)
  have hndsplit : (ttsTrainIdx idx ++ ttsTestIdx idx).Nodup := by
    rw [ttsTrainIdx, ttsTestIdx, List.take_append_drop]
    exact hnd
  have hzip : ∀ js : List Nat,
      (reindex X js).zip (reindex y js) =
        js.map fun j => (X.getD j default, y.getD j default) := by
    intro js
    rw [reindex, reindex, List.zip_map']
  simp only [train_test_split_eq]
  refine ⟨?_, ?_, ?_, ?_, (List.nodup_append.mp hndsplit).2.2, ?_⟩
  · rw [reindex, List.length_map, htake]
  · rw [reindex, List.length_map, hdrop]
  · rw [reindex, List.length_map, htake]
  · rw [reindex, List.length_map, hdrop]
  · rw [hzip, hzip, ← List.map_append, ttsTrainIdx, ttsTestIdx, List.take_append_drop,
      ← zip_getD_map_range X y hy]
    exact hperm.map _

/-- Claim C9 (witness): the partition invariants evaluated on a concrete
5-sample dataset under a concrete shuffled order. -/
theorem train_test_split_partition_witness :
    ([2, 0, 4, 1, 3] : List Nat).Perm (List.range ([10, 20, 30, 40, 50] : List Nat).length) ∧
    ((train_test_split [2, 0, 4, 1, 3] ([10, 20, 30, 40, 50] : List Nat)
        ([5, 6, 7, 8, 9] : List Nat)).1.length = trainSize 5 ∧
      (train_test_split [2, 0, 4, 1, 3] ([10, 20, 30, 40, 50] : List Nat)
        ([5, 6, 7, 8, 9] : List Nat)).2.1.length = 5 - trainSize 5 ∧
      (train_test_split [2, 0, 4, 1, 3] ([10, 20, 30, 40, 50] : List Nat)
        ([5, 6, 7, 8, 9] : List Nat)).2.2.1.length = trainSize 5 ∧
      (train_test_split [2, 0, 4, 1, 3] ([10, 20, 30, 40, 50] : List Nat)
        ([5, 6, 7, 8, 9] : List Nat)).2.2.2.length = 5 - trainSize 5 ∧
      List.Disjoint (ttsTrainIdx [2, 0, 4, 1, 3]) (ttsTestIdx [2, 0, 4, 1, 3]) ∧
      ((train_test_split [2, 0, 4, 1, 3] ([10, 20, 30, 40, 50] : List Nat)
          ([5, 6, 7, 8, 9] : List Nat)).1.zip
        (train_test_split [2, 0, 4, 1, 3] ([10, 20, 30, 40, 50] : List Nat)
          ([5, 6, 7, 8, 9] : List Nat)).2.2.1 ++
        (train_test_split [2, 0, 4, 1, 3] ([10, 20, 30, 40, 50] : List Nat)
          ([5, 6, 7, 8, 9] : List Nat)).2.1.zip
        (train_test_split [2, 0, 4, 1, 3] ([10, 20, 30, 40, 50] : List Nat)
          ([5, 6, 7, 8, 9] : List Nat)).2.2.2).Perm
        (([10, 20, 30, 40, 50] : List Nat).zip ([5, 6, 7, 8, 9] : List Nat))) :=
  ⟨by decide,
    train_test_split_partition [10, 20, 30, 40, 50] [5, 6, 7, 8, 9] [2, 0, 4, 1, 3]
      (by decide) rfl⟩

/-! ## Determinism of the seeded calls -/

/-- Claim C10: because `random_state` is pinned to a fixed integer (0 for the
permeability split, 42 for the melting-point split and for `KMeans`), the
seeded generator ignores the ambient RNG state: two runs with different
ambient states `env1`, `env2` on the same input data produce identical
train/test splits and identical cluster-label vectors. -/
theorem fixed_seed_determinism (env1 env2 : Nat) (X : List ℚ) (y : List ℚ)
    (tr te : List (ℚ × ℚ)) :
    ttsRun env1 (some 0) X y = ttsRun env2 (some 0) X y ∧
    ttsRun env1 (some 42) X y = ttsRun env2 (some 42) X y ∧
    kmeansRun env1 (some 42) 3 tr te = kmeansRun env2 (some 42) 3 tr te :=
  ⟨rfl, rfl, rfl⟩
